import Mathlib

/-!
Verification of the session discovery/control engine of the sound-generator
repository (src-tauri/src/audio). The Windows COM surface that the Rust code
calls into (device enumerator, session manager, session enumerator, session
control, simple volume, the undocumented policy-config factory) is modelled as
an explicit environment of fallible calls: every Rust call returning
`windows::core::Result<T>` becomes a field of type `Except WinErr T` (or a
function producing one), and the Rust functions `get_sessions`,
`apply_to_session` / `set_session_volume` / `set_session_mute`,
`AudioPolicyConfigFactory::new` and `set_persisted_default_audio_endpoint`
are translated line by line over that environment. Observable side effects
(writes to a session's `ISimpleAudioVolume`, writes to the policy store,
`QueryInterface` attempts) are returned as explicit logs so that theorems can
speak about which remote calls a function performs.

`f32` volume values are modelled as `Rat`: the Rust code never computes with a
volume, it only passes values through and uses the literal `0.0` as a default,
so no floating-point rounding behaviour is involved in any claim. `u32`
process ids are modelled as `Nat` (no arithmetic is ever performed on them).
-/

namespace SoundGen

/-- A Windows HRESULT as returned by raw vtable calls; negative codes are
failures, mirroring `HRESULT::is_err()`. -/
structure HRes where
  code : Int
deriving DecidableEq, Repr

def HRes.isErr (h : HRes) : Bool := h.code < 0

/-- A `windows::core::Error` value (only its identity matters here). -/
structure WinErr where
  code : Int
deriving DecidableEq, Repr

/-- Model of `HRESULT::ok()`: convert a raw result into `Result<(), Error>`. -/
def HRes.toResult (h : HRes) : Except WinErr Unit :=
  if h.isErr then .error ⟨h.code⟩ else .ok ()

/-- Model of `AudioSessionState`: Inactive / Active / Expired. -/
inductive SessionState
  | active
  | inactive
  | expired
deriving DecidableEq, Repr

/-- The `ISimpleAudioVolume` sub-interface of one session. `sid` identifies
the underlying COM object, so that write logs can say which session object a
`SetMasterVolume` / `SetMute` call was issued on. The `set` fields give the
remote object's response to a written value. -/
structure SimpleVolume where
  sid : Nat
  getMasterVolume : Except WinErr Rat
  getMute : Except WinErr Bool
  setMasterVolume : Rat → Except WinErr Unit
  setMute : Bool → Except WinErr Unit

/-- The `IAudioSessionControl2` view of one session. -/
structure SessionControl2 where
  getProcessId : Except WinErr Nat
  getState : Except WinErr SessionState

/-- One session as handed out by `IAudioSessionEnumerator::GetSession`.
The two fields model the results of `session.cast::<IAudioSessionControl2>()`
and `session.cast::<ISimpleAudioVolume>()` (`none` = the cast failed; the
code never inspects the error value of a failed cast). -/
structure Session where
  castControl2 : Option SessionControl2
  castSimpleVolume : Option SimpleVolume

/-- Model of an `IAudioSessionEnumerator`. -/
structure SessionEnumerator where
  getCount : Except WinErr Nat
  getSession : Nat → Except WinErr Session

/-- Model of an `IAudioSessionManager2` (obtained by `device.Activate`). -/
structure SessionManager where
  getSessionEnumerator : Except WinErr SessionEnumerator

/-- An `IMMDevice`. `getId` models `GetId()?` followed by
`.to_string()` (whose failure is absorbed by `unwrap_or_default()`, hence the
inner `Option`); `activate` models `device.Activate::<IAudioSessionManager2>`. -/
structure Device where
  getId : Except WinErr (Option String)
  activate : Except WinErr SessionManager

/-- An `IMMDeviceCollection` as returned by `EnumAudioEndpoints`. -/
structure DeviceCollection where
  getCount : Except WinErr Nat
  item : Nat → Except WinErr Device

/-- The ambient environment of `AudioManager`: the device enumerator plus the
external collaborators `get_process_full_path` (OpenProcess +
QueryFullProcessImageNameW), `icon::extract_product_name` and
`icon::extract_icon_base64`, all best-effort `Option` producers. -/
structure AudioEnv where
  enumDevices : Except WinErr DeviceCollection
  fullPath : Nat → Option String
  productName : String → Option String
  iconBase64 : String → Option String

/-- The record returned to the frontend for one session
(`pub struct AudioSessionInfo`). -/
structure AudioSessionInfo where
  process_id : Nat
  process_name : String
  volume : Rat
  is_muted : Bool
  icon_base64 : Option String
  device_id : String
deriving DecidableEq, Repr

/-- Model of the rfind-a-backslash fallback, `full_path[pos + 1..]`: the
characters after the last backslash, or the whole string if it contains no
backslash (computed here as the longest backslash-free suffix). -/
def fileNameOfPath (p : String) : String :=
  String.mk ((p.data.reverse.takeWhile (fun c => c ≠ '\\')).reverse)

/-- The display-name / icon resolution block of `get_sessions`: resolve the
executable path of `pid`; on success take the product name, falling back to
the file name; on failure use the literal name "Unknown" and no icon. -/
def resolveNameIcon (env : AudioEnv) (pid : Nat) : String × Option String :=
  match env.fullPath pid with
  | some fp =>
    (match env.productName fp with
     | some n => n
     | none => fileNameOfPath fp,
     env.iconBase64 fp)
  | none => ("Unknown", none)

/-- The volume read of the session block: starts at the default `0.0` and is
overwritten only if the `ISimpleAudioVolume` cast and `GetMasterVolume` both
succeed. -/
def sessionVol (s : Session) : Rat :=
  match s.castSimpleVolume with
  | some sv =>
    match sv.getMasterVolume with
    | .ok v => v
    | .error _ => 0
  | none => 0

/-- The mute read of the session block: starts at `BOOL::default()` (false)
and is overwritten only if the cast and `GetMute` both succeed. -/
def sessionMute (s : Session) : Bool :=
  match s.castSimpleVolume with
  | some sv =>
    match sv.getMute with
    | .ok m => m
    | .error _ => false
  | none => false

/-- The `AudioSessionInfo` record pushed for a session that passed every
filter. -/
def mkInfo (env : AudioEnv) (deviceId : String) (pid : Nat) (s : Session) :
    AudioSessionInfo :=
  { process_id := pid, process_name := (resolveNameIcon env pid).1,
    volume := sessionVol s, is_muted := sessionMute s,
    icon_base64 := (resolveNameIcon env pid).2, device_id := deviceId }

/-- The body of the inner session loop of `get_sessions` for one session:
`.ok none` means the session is skipped (failed control2 cast, pid 0, or
Expired state), `.ok (some info)` means an entry is pushed, `.error e` means
the `?` operator aborts the whole call. The event-listener registration block
of the source is omitted here: its result is discarded by the code
(`let _ = control.RegisterAudioSessionNotification(..)`) and it has no effect
on the returned data. -/
def sessionInfo (env : AudioEnv) (deviceId : String) (s : Session) :
    Except WinErr (Option AudioSessionInfo) :=
  match s.castControl2 with
  | none => .ok none
  | some c2 =>
    match c2.getProcessId with
    | .error e => .error e
    | .ok pid =>
      if pid = 0 then .ok none
      else
        match c2.getState with
        | .error e => .error e
        | .ok st =>
          if st = SessionState.expired then .ok none
          else .ok (some (mkInfo env deviceId pid s))

/-- The session loop `for i in 0..count` of `get_sessions`, run over an
explicit list of indices (`List.range count` at the call site). -/
def collectSessions (env : AudioEnv) (deviceId : String)
    (enum : SessionEnumerator) : List Nat → Except WinErr (List AudioSessionInfo)
  | [] => .ok []
  | i :: rest =>
    match enum.getSession i with
    | .error e => .error e
    | .ok s =>
      match sessionInfo env deviceId s with
      | .error e => .error e
      | .ok info? =>
        match collectSessions env deviceId enum rest with
        | .error e => .error e
        | .ok tail =>
          .ok (match info? with
               | some info => info :: tail
               | none => tail)

/-- The per-device body of `get_sessions`: `GetId()?` (string conversion
failure absorbed by `unwrap_or_default`), `Activate?`,
`GetSessionEnumerator?`, `GetCount?`, then the session loop. -/
def deviceSessions (env : AudioEnv) (dev : Device) :
    Except WinErr (List AudioSessionInfo) :=
  match dev.getId with
  | .error e => .error e
  | .ok idOpt =>
    match dev.activate with
    | .error e => .error e
    | .ok mgr =>
      match mgr.getSessionEnumerator with
      | .error e => .error e
      | .ok enum =>
        match enum.getCount with
        | .error e => .error e
        | .ok n => collectSessions env (idOpt.getD "") enum (List.range n)

/-- The device loop `for d in 0..device_count` of `get_sessions`. -/
def collectDevices (env : AudioEnv) (col : DeviceCollection) :
    List Nat → Except WinErr (List AudioSessionInfo)
  | [] => .ok []
  | d :: rest =>
    match col.item d with
    | .error e => .error e
    | .ok dev =>
      match deviceSessions env dev with
      | .error e => .error e
      | .ok infos =>
        match collectDevices env col rest with
        | .error e => .error e
        | .ok tail => .ok (infos ++ tail)

/-- Translation of `AudioManager::get_sessions`. -/
def getSessions (env : AudioEnv) : Except WinErr (List AudioSessionInfo) :=
  match env.enumDevices with
  | .error e => .error e
  | .ok col =>
    match col.getCount with
    | .error e => .error e
    | .ok n => collectDevices env col (List.range n)

/-- The action closure passed to `apply_to_session` by `set_session_volume`
(`sv.SetMasterVolume(volume, ..)`) or `set_session_mute` (`sv.SetMute(..)`). -/
inductive VolAction
  | setVolume (v : Rat)
  | setMute (m : Bool)
deriving DecidableEq, Repr

/-- Run the closure on a concrete `ISimpleAudioVolume`. -/
def runAction (sv : SimpleVolume) : VolAction → Except WinErr Unit
  | .setVolume v => sv.setMasterVolume v
  | .setMute m => sv.setMute m

/-- Outcome of scanning a list of sessions / devices inside
`apply_to_session`: an API failure aborts via `?`; finding a match runs the
action on session object `sid` and returns its result immediately
(`return action(sv)`); otherwise the scan falls through with no match. -/
inductive ScanOut
  | aborted (e : WinErr)
  | acted (r : Except WinErr Unit) (sid : Nat)
  | noMatch

/-- The session loop of `apply_to_session`. Note the source's behaviour when
`pid == target_pid` but the `ISimpleAudioVolume` cast fails: the `if let`
falls through and the scan continues with the next session. -/
def applySessions (target : Nat) (act : VolAction)
    (enum : SessionEnumerator) : List Nat → ScanOut
  | [] => .noMatch
  | i :: rest =>
    match enum.getSession i with
    | .error e => .aborted e
    | .ok s =>
      match s.castControl2 with
      | none => applySessions target act enum rest
      | some c2 =>
        match c2.getProcessId with
        | .error e => .aborted e
        | .ok pid =>
          if pid = target then
            match s.castSimpleVolume with
            | some sv => .acted (runAction sv act) sv.sid
            | none => applySessions target act enum rest
          else applySessions target act enum rest

/-- The device loop of `apply_to_session` (note: unlike `get_sessions`, this
path never calls `GetId`). -/
def applyDevices (target : Nat) (act : VolAction)
    (col : DeviceCollection) : List Nat → ScanOut
  | [] => .noMatch
  | d :: rest =>
    match col.item d with
    | .error e => .aborted e
    | .ok dev =>
      match dev.activate with
      | .error e => .aborted e
      | .ok mgr =>
        match mgr.getSessionEnumerator with
        | .error e => .aborted e
        | .ok enum =>
          match enum.getCount with
          | .error e => .aborted e
          | .ok n =>
            match applySessions target act enum (List.range n) with
            | .aborted e => .aborted e
            | .acted r sid => .acted r sid
            | .noMatch => applyDevices target act col rest

/-- Translation of `AudioManager::apply_to_session`. The first component is the Rust
function's `Result<()>`; the second is the log of mutating calls issued on
session volume objects, as pairs (object id, action) — the source issues at
most one such call and returns its result, or falls through to `Ok(())`. -/
def applyToSession (env : AudioEnv) (target : Nat) (act : VolAction) :
    Except WinErr Unit × List (Nat × VolAction) :=
  match env.enumDevices with
  | .error e => (.error e, [])
  | .ok col =>
    match col.getCount with
    | .error e => (.error e, [])
    | .ok n =>
      match applyDevices target act col (List.range n) with
      | .aborted e => (.error e, [])
      | .acted r sid => (r, [(sid, act)])
      | .noMatch => (.ok (), [])

/-- Translation of `AudioManager::set_session_volume`. -/
def setSessionVolume (env : AudioEnv) (pid : Nat) (v : Rat) :
    Except WinErr Unit × List (Nat × VolAction) :=
  applyToSession env pid (.setVolume v)

/-- Translation of `AudioManager::set_session_mute`. -/
def setSessionMute (env : AudioEnv) (pid : Nat) (m : Bool) :
    Except WinErr Unit × List (Nat × VolAction) :=
  applyToSession env pid (.setMute m)

/-! ### The undocumented policy-config factory (policy.rs) -/

/-- The remote policy store reached through the reconstructed vtable:
`setEndpoint pid flow role deviceId` is the HRESULT of one
`SetPersistedDefaultAudioEndpoint` slot call, `getEndpoint` the HRESULT and
out-string of the verification `GetPersistedDefaultAudioEndpoint` call. -/
structure PolicyStore where
  setEndpoint : Nat → Int → Int → String → HRes
  getEndpoint : Nat → Int → Int → HRes × String

def flowRender : Int := 0
def roleConsole : Int := 0
def roleMultimedia : Int := 1
def roleCommunications : Int := 2

/-- Translation of `AudioPolicyConfigFactory::set_persisted_default_audio_endpoint`. The
first component is the Rust `Result<()>`; the second logs every
`SetPersistedDefaultAudioEndpoint` vtable call as (pid, flow, role, device
id), in call order. The source computes hr1/hr2/hr3 unconditionally, performs
the read-back purely for a log line, then propagates `hr1.ok()?` and discards
`hr2` and `hr3` (`let _ = ..`). -/
def setPersistedDefaultAudioEndpoint (store : PolicyStore) (pid : Nat)
    (deviceId : String) : Except WinErr Unit × List (Nat × Int × Int × String) :=
  let hr1 := store.setEndpoint pid flowRender roleConsole deviceId
  let hr2 := store.setEndpoint pid flowRender roleMultimedia deviceId
  let hr3 := store.setEndpoint pid flowRender roleCommunications deviceId
  let _hrGet := store.getEndpoint pid flowRender roleConsole
  let res : Except WinErr Unit :=
    match hr1.toResult with
    | .error e => .error e
    | .ok _ =>
      let _ := hr2.toResult
      let _ := hr3.toResult
      .ok ()
  (res,
   [(pid, flowRender, roleConsole, deviceId),
    (pid, flowRender, roleMultimedia, deviceId),
    (pid, flowRender, roleCommunications, deviceId)])

/-- The activation-factory object obtained from `RoGetActivationFactory`:
`qi g` models a raw `QueryInterface` call with interface GUID `g`, returning
the HRESULT and the written out-pointer (`0` = null). GUIDs are modelled as
their 128-bit numeric value. -/
structure ComObj where
  qi : Nat → HRes × Nat

def IID_21H2 : Nat := 0xab3d4648e242459fb02f541c70306324

def IID_DOWNLEVEL : Nat := 0x2a59116d6c4f45e0a74f707e3fef9258

/-- Translation of `AudioPolicyConfigFactory::new` from the `RoGetActivationFactory` result
on: query `IID_21H2`; on failure reset the pointer and query `IID_DOWNLEVEL`;
if that also fails return an error; then fail on a null pointer, otherwise
return the handle built from the successful pointer. The second component
logs the GUIDs passed to `QueryInterface`, in call order. -/
def factoryNew (act : Except WinErr ComObj) : Except WinErr Nat × List Nat :=
  match act with
  | .error e => (.error e, [])
  | .ok obj =>
    if (obj.qi IID_21H2).1.isErr then
      if (obj.qi IID_DOWNLEVEL).1.isErr then
        (.error ⟨0⟩, [IID_21H2, IID_DOWNLEVEL])
      else if (obj.qi IID_DOWNLEVEL).2 = 0 then
        (.error ⟨0⟩, [IID_21H2, IID_DOWNLEVEL])
      else (.ok (obj.qi IID_DOWNLEVEL).2, [IID_21H2, IID_DOWNLEVEL])
    else if (obj.qi IID_21H2).2 = 0 then (.error ⟨0⟩, [IID_21H2])
    else (.ok (obj.qi IID_21H2).2, [IID_21H2])

/-! ### Predicates used by the theorem statements -/

/-- Predicate: `s` is the `j`-th session of the `d`-th active render device of `env`,
as observed through the calls `get_sessions` / `apply_to_session` make. -/
def SessionAt (env : AudioEnv) (d j : Nat) (dev : Device) (s : Session) : Prop :=
  ∃ col n, env.enumDevices = .ok col ∧ col.getCount = .ok n ∧ d < n ∧
    col.item d = .ok dev ∧
    ∃ mgr enum cnt, dev.activate = .ok mgr ∧
      mgr.getSessionEnumerator = .ok enum ∧
      enum.getCount = .ok cnt ∧ j < cnt ∧ enum.getSession j = .ok s

/-- Every call on the enumeration path of `apply_to_session` succeeds
(devices can be listed and activated, sessions retrieved, and the process id
of every castable session read). -/
def ScanOk (env : AudioEnv) : Prop :=
  ∃ col n, env.enumDevices = .ok col ∧ col.getCount = .ok n ∧
    ∀ d, d < n → ∃ dev, col.item d = .ok dev ∧
      ∃ mgr, dev.activate = .ok mgr ∧
        ∃ enum, mgr.getSessionEnumerator = .ok enum ∧
          ∃ cnt, enum.getCount = .ok cnt ∧
            ∀ j, j < cnt → ∃ s, enum.getSession j = .ok s ∧
              ∀ c2, s.castControl2 = some c2 → ∃ p, c2.getProcessId = .ok p

/-- No session on any active device belongs to process `target`. -/
def NoSessionFor (env : AudioEnv) (target : Nat) : Prop :=
  ∀ d j dev s, SessionAt env d j dev s →
    ∀ c2 p, s.castControl2 = some c2 → c2.getProcessId = .ok p → p ≠ target

/-- Predicate: `apply_to_session` acts on session `s` through volume object `sv`:
the control cast succeeds, the pid matches, and the volume cast succeeds. -/
def ActsOn (target : Nat) (s : Session) (sv : SimpleVolume) : Prop :=
  ∃ c2, s.castControl2 = some c2 ∧ c2.getProcessId = .ok target ∧
    s.castSimpleVolume = some sv

/-- The scan of `apply_to_session` passes over `s` without acting and
without aborting: either the control cast fails, or the pid reads but does
not match, or it matches and the volume cast fails. -/
def Skipped (target : Nat) (s : Session) : Prop :=
  s.castControl2 = none ∨
  ∃ c2 p, s.castControl2 = some c2 ∧ c2.getProcessId = .ok p ∧
    (p ≠ target ∨ s.castSimpleVolume = none)

/-- Scanning device `dev` for `target` inspects every session and skips all
of them. -/
def DeviceSkipsAll (target : Nat) (dev : Device) : Prop :=
  ∃ mgr enum cnt, dev.activate = .ok mgr ∧
    mgr.getSessionEnumerator = .ok enum ∧ enum.getCount = .ok cnt ∧
    ∀ j, j < cnt → ∃ s, enum.getSession j = .ok s ∧ Skipped target s

/-! ### Concrete environments -/

/-- A healthy `ISimpleAudioVolume` that accepts every write. -/
def svOk (sid : Nat) (v : Rat) (m : Bool) : SimpleVolume :=
  { sid := sid, getMasterVolume := .ok v, getMute := .ok m,
    setMasterVolume := fun _ => .ok (), setMute := fun _ => .ok () }

def ctlOk (pid : Nat) (st : SessionState) : SessionControl2 :=
  { getProcessId := .ok pid, getState := .ok st }

/-- A fully healthy session. -/
def sessOk (pid : Nat) (st : SessionState) (sid : Nat) (v : Rat) (m : Bool) :
    Session :=
  { castControl2 := some (ctlOk pid st), castSimpleVolume := some (svOk sid v m) }

def enumOfList (ss : List (Except WinErr Session)) : SessionEnumerator :=
  { getCount := .ok ss.length, getSession := fun j => ss.getD j (.error ⟨-1⟩) }

def mgrOf (ss : List (Except WinErr Session)) : SessionManager :=
  { getSessionEnumerator := .ok (enumOfList ss) }

def devOf (id : String) (ss : List (Except WinErr Session)) : Device :=
  { getId := .ok (some id), activate := .ok (mgrOf ss) }

def colOfList (ds : List (Except WinErr Device)) : DeviceCollection :=
  { getCount := .ok ds.length, item := fun d => ds.getD d (.error ⟨-1⟩) }

/-- An environment from a device list, with no resolvable process paths. -/
def envOf (ds : List (Except WinErr Device)) : AudioEnv :=
  { enumDevices := .ok (colOfList ds), fullPath := fun _ => none,
    productName := fun _ => none, iconBase64 := fun _ => none }

/-- A device whose `Activate` call fails with code -5. -/
def devActivateFails : Device :=
  { getId := .ok (some ("dev0")), activate := .error ⟨-5⟩ }

/-- A healthy device carrying one healthy session of process 100. -/
def devGood : Device :=
  devOf ("dev1") [.ok (sessOk 100 SessionState.active 1 (1/2) false)]

/-- Two devices; only the first one's session-manager activation fails. -/
def envC1 : AudioEnv := envOf [.ok devActivateFails, .ok devGood]

/-- The same environment without the failing device. -/
def envC1good : AudioEnv := envOf [.ok devGood]

/-- One device, one healthy session of process 100 on volume object 7. -/
def envC2 : AudioEnv :=
  envOf [.ok (devOf ("dev1") [.ok (sessOk 100 SessionState.active 7 (1/4) false)])]

/-- Two devices, each with a session of process 100 (objects 1 and 2). -/
def envW8 : AudioEnv :=
  envOf [.ok (devOf ("devA") [.ok (sessOk 100 SessionState.active 1 (1/2) false)]),
         .ok (devOf ("devB") [.ok (sessOk 100 SessionState.active 2 (1/2) false)])]

/-- A session whose `ISimpleAudioVolume` cast fails. -/
def sessNoVolume : Session :=
  { castControl2 := some (ctlOk 100 SessionState.active), castSimpleVolume := none }

/-- An environment whose process 100 resolves to a full path but whose
product-name extraction fails. -/
def envW10 : AudioEnv :=
  { enumDevices := .ok (colOfList []),
    fullPath := fun p => if p = 100 then some ("C:\\apps\\tool.exe") else none,
    productName := fun _ => none, iconBase64 := fun _ => none }

/-- An activation factory supporting only the downlevel interface, on
pointer 7. -/
def objC6 : ComObj :=
  { qi := fun g => if g = IID_DOWNLEVEL then (⟨0⟩, 7) else (⟨-2147467262⟩, 0) }

/-- A policy store accepting console-role writes and rejecting the rest. -/
def storeConsoleOnly : PolicyStore :=
  { setEndpoint := fun _ _ role _ => if role = roleConsole then ⟨0⟩ else ⟨-3⟩,
    getEndpoint := fun _ _ _ => (⟨-4⟩, "") }

/-! ### Inversion lemmas for `get_sessions` -/

/-- Characterisation of a pushed entry: inverting the per-session body. -/
theorem sessionInfo_some_inv {env : AudioEnv} {devId : String} {s : Session}
    {info : AudioSessionInfo}
    (h : sessionInfo env devId s = .ok (some info)) :
    ∃ c2 st, s.castControl2 = some c2 ∧
      c2.getProcessId = .ok info.process_id ∧ info.process_id ≠ 0 ∧
      c2.getState = .ok st ∧ st ≠ SessionState.expired ∧
      info.device_id = devId := by
  unfold sessionInfo at h
  split at h
  · exact absurd h (by simp)
  next c2 hc2 =>
    split at h
    · exact absurd h (by simp)
    next pid hpid =>
      split at h
      · exact absurd h (by simp)
      next hpid0 =>
        split at h
        · exact absurd h (by simp)
        next st hst =>
          split at h
          · exact absurd h (by simp)
          next hstexp =>
            simp only [Except.ok.injEq, Option.some.injEq] at h
            refine ⟨c2, st, hc2, ?_, ?_, hst, hstexp, ?_⟩
            · rw [← h]; exact hpid
            · rw [← h]; exact hpid0
            · rw [← h]; rfl

theorem mem_collectSessions {env : AudioEnv} {devId : String}
    {enum : SessionEnumerator} :
    ∀ {idxs : List Nat} {out : List AudioSessionInfo},
      collectSessions env devId enum idxs = .ok out →
      ∀ {info : AudioSessionInfo}, info ∈ out →
        ∃ i, i ∈ idxs ∧ ∃ s, enum.getSession i = .ok s ∧
          sessionInfo env devId s = .ok (some info) := by
  intro idxs
  induction idxs with
  | nil =>
    intro out h info hm
    unfold collectSessions at h
    simp only [Except.ok.injEq] at h
    subst h
    simp at hm
  | cons i rest ih =>
    intro out h info hm
    unfold collectSessions at h
    split at h
    · exact absurd h (by simp)
    next s hs =>
      split at h
      · exact absurd h (by simp)
      next info? hinfo? =>
        split at h
        · exact absurd h (by simp)
        next tail htail =>
          simp only [Except.ok.injEq] at h
          subst h
          cases info? with
          | some info0 =>
            simp only at hm
            rcases List.mem_cons.mp hm with heq | hmem
            · subst heq
              exact ⟨i, List.mem_cons_self .., s, hs, hinfo?⟩
            · rcases ih htail hmem with ⟨i', hi', s', hs', hinfo'⟩
              exact ⟨i', List.mem_cons_of_mem _ hi', s', hs', hinfo'⟩
          | none =>
            simp only at hm
            rcases ih htail hm with ⟨i', hi', s', hs', hinfo'⟩
            exact ⟨i', List.mem_cons_of_mem _ hi', s', hs', hinfo'⟩

theorem mem_deviceSessions {env : AudioEnv} {dev : Device}
    {out : List AudioSessionInfo} (h : deviceSessions env dev = .ok out)
    {info : AudioSessionInfo} (hm : info ∈ out) :
    ∃ idOpt mgr enum n, dev.getId = .ok idOpt ∧ dev.activate = .ok mgr ∧
      mgr.getSessionEnumerator = .ok enum ∧ enum.getCount = .ok n ∧
      ∃ i, i < n ∧ ∃ s, enum.getSession i = .ok s ∧
        sessionInfo env (idOpt.getD "") s = .ok (some info) := by
  unfold deviceSessions at h
  split at h
  · exact absurd h (by simp)
  next idOpt hid =>
    split at h
    · exact absurd h (by simp)
    next mgr hmgr =>
      split at h
      · exact absurd h (by simp)
      next enum henum =>
        split at h
        · exact absurd h (by simp)
        next n hn =>
          rcases mem_collectSessions h hm with ⟨i, hi, s, hs, hinfo⟩
          exact ⟨idOpt, mgr, enum, n, hid, hmgr, henum, hn, i,
            List.mem_range.mp hi, s, hs, hinfo⟩

theorem mem_collectDevices {env : AudioEnv} {col : DeviceCollection} :
    ∀ {ds : List Nat} {out : List AudioSessionInfo},
      collectDevices env col ds = .ok out →
      ∀ {info : AudioSessionInfo}, info ∈ out →
        ∃ d, d ∈ ds ∧ ∃ dev outd, col.item d = .ok dev ∧
          deviceSessions env dev = .ok outd ∧ info ∈ outd := by
  intro ds
  induction ds with
  | nil =>
    intro out h info hm
    unfold collectDevices at h
    simp only [Except.ok.injEq] at h
    subst h
    simp at hm
  | cons d rest ih =>
    intro out h info hm
    unfold collectDevices at h
    split at h
    · exact absurd h (by simp)
    next dev hdev =>
      split at h
      · exact absurd h (by simp)
      next infos hinfos =>
        split at h
        · exact absurd h (by simp)
        next tail htail =>
          simp only [Except.ok.injEq] at h
          subst h
          rcases List.mem_append.mp hm with hmem | hmem
          · exact ⟨d, List.mem_cons_self .., dev, infos, hdev, hinfos, hmem⟩
          · rcases ih htail hmem with ⟨d', hd', dev', outd', hdev', hds', hm'⟩
            exact ⟨d', List.mem_cons_of_mem _ hd', dev', outd', hdev', hds', hm'⟩

/-- Every entry of a successful `get_sessions` call is backed by a concrete
session of a concrete active device, which passed every filter. -/
theorem mem_getSessions {env : AudioEnv} {out : List AudioSessionInfo}
    (h : getSessions env = .ok out) {info : AudioSessionInfo}
    (hm : info ∈ out) :
    ∃ d j dev s, SessionAt env d j dev s ∧
      sessionInfo env info.device_id s = .ok (some info) := by
  unfold getSessions at h
  split at h
  · exact absurd h (by simp)
  next col hcol =>
    split at h
    · exact absurd h (by simp)
    next n hn =>
      rcases mem_collectDevices h hm with ⟨d, hd, dev, outd, hdev, hds, hmem⟩
      rcases mem_deviceSessions hds hmem with
        ⟨idOpt, mgr, enum, cnt, hid, hmgr, henum, hcnt, j, hj, s, hs, hinfo⟩
      have hdevid : info.device_id = idOpt.getD "" :=
        (sessionInfo_some_inv hinfo).choose_spec.choose_spec.2.2.2.2.2
      refine ⟨d, j, dev, s,
        ⟨col, n, hcol, hn, List.mem_range.mp hd, hdev,
          mgr, enum, cnt, hmgr, henum, hcnt, hj, hs⟩, ?_⟩
      rw [hdevid]
      exact hinfo

/-! ### Claims C3 and C4 -/

/-- Claim C3: every entry of the sequence returned by `get_sessions` is backed
by a session of an active device whose lifecycle state was observed as some
state other than Expired; hence a session observed as Expired during
enumeration never appears in the returned sequence. -/
theorem c3_expired_never_listed {env : AudioEnv} {out : List AudioSessionInfo}
    (h : getSessions env = .ok out) {info : AudioSessionInfo}
    (hm : info ∈ out) :
    ∃ d j dev s c2 st, SessionAt env d j dev s ∧
      s.castControl2 = some c2 ∧ c2.getProcessId = .ok info.process_id ∧
      c2.getState = .ok st ∧ st ≠ SessionState.expired := by
  rcases mem_getSessions h hm with ⟨d, j, dev, s, hat, hinfo⟩
  rcases sessionInfo_some_inv hinfo with ⟨c2, st, hc2, hpid, _, hst, hexp, _⟩
  exact ⟨d, j, dev, s, c2, st, hat, hc2, hpid, hst, hexp⟩

theorem c3_witness :
    ∃ d j dev s c2 st, SessionAt envC1good d j dev s ∧
      s.castControl2 = some c2 ∧ c2.getProcessId = .ok (100 : Nat) ∧
      c2.getState = .ok st ∧ st ≠ SessionState.expired :=
  @c3_expired_never_listed envC1good
    [{ process_id := 100, process_name := "Unknown", volume := 1/2,
       is_muted := false, icon_base64 := none, device_id := "dev1" }]
    rfl
    { process_id := 100, process_name := "Unknown", volume := 1/2,
      is_muted := false, icon_base64 := none, device_id := "dev1" }
    (by simp)

/-- Claim C4: every entry of the sequence returned by `get_sessions` carries a
non-zero process id; a session whose owning process id is 0 never appears in
the returned sequence. -/
theorem c4_pid_zero_never_listed {env : AudioEnv} {out : List AudioSessionInfo}
    (h : getSessions env = .ok out) {info : AudioSessionInfo}
    (hm : info ∈ out) : info.process_id ≠ 0 := by
  rcases mem_getSessions h hm with ⟨d, j, dev, s, hat, hinfo⟩
  rcases sessionInfo_some_inv hinfo with ⟨c2, st, _, _, hpid0, _, _, _⟩
  exact hpid0

theorem c4_witness :
    ({ process_id := 100, process_name := "Unknown", volume := 1/2,
       is_muted := false, icon_base64 := none,
       device_id := "dev1" } : AudioSessionInfo).process_id ≠ 0 :=
  @c4_pid_zero_never_listed envC1good
    [{ process_id := 100, process_name := "Unknown", volume := 1/2,
       is_muted := false, icon_base64 := none, device_id := "dev1" }]
    rfl
    { process_id := 100, process_name := "Unknown", volume := 1/2,
      is_muted := false, icon_base64 := none, device_id := "dev1" }
    (by simp)

/-! ### Claims C9 and C10 -/

/-- Claim C9: for a session that passes the pid and state filters, a failure
to read volume or mute — including a failed `ISimpleAudioVolume` cast — does
not drop the session: it is still pushed, with the failed reads left at their
defaults (volume 0.0, mute false), and the scan of the remaining sessions
continues exactly as it would have. -/
theorem c9_read_failure_defaults {env : AudioEnv} {devId : String}
    {s : Session} {c2 : SessionControl2} {pid : Nat} {st : SessionState}
    (hc : s.castControl2 = some c2) (hp : c2.getProcessId = .ok pid)
    (hp0 : pid ≠ 0) (hs : c2.getState = .ok st)
    (hse : st ≠ SessionState.expired) :
    (s.castSimpleVolume = none →
      ∃ info, sessionInfo env devId s = .ok (some info) ∧
        info.volume = 0 ∧ info.is_muted = false) ∧
    (∀ sv e, s.castSimpleVolume = some sv → sv.getMasterVolume = .error e →
      ∃ info, sessionInfo env devId s = .ok (some info) ∧ info.volume = 0) ∧
    (∀ sv e, s.castSimpleVolume = some sv → sv.getMute = .error e →
      ∃ info, sessionInfo env devId s = .ok (some info) ∧
        info.is_muted = false) ∧
    (∀ info, sessionInfo env devId s = .ok (some info) →
      ∀ enum i rest, enum.getSession i = .ok s →
        collectSessions env devId enum (i :: rest) =
          Except.map (fun t => info :: t) (collectSessions env devId enum rest)) := by
  have hok : sessionInfo env devId s = .ok (some (mkInfo env devId pid s)) := by
    simp [sessionInfo, hc, hp, hp0, hs, hse]
  refine ⟨?_, ?_, ?_, ?_⟩
  · intro hsv
    exact ⟨mkInfo env devId pid s, hok, by simp [mkInfo, sessionVol, hsv],
      by simp [mkInfo, sessionMute, hsv]⟩
  · intro sv e hsv herr
    exact ⟨mkInfo env devId pid s, hok, by simp [mkInfo, sessionVol, hsv, herr]⟩
  · intro sv e hsv herr
    exact ⟨mkInfo env devId pid s, hok, by simp [mkInfo, sessionMute, hsv, herr]⟩
  · intro info hinfo enum i rest hget
    simp only [collectSessions, hget, hinfo]
    cases hrest : collectSessions env devId enum rest <;> simp [hrest, Except.map]

theorem c9_witness :
    ∃ info, sessionInfo envC1good ("d") sessNoVolume = .ok (some info) ∧
      info.volume = 0 ∧ info.is_muted = false :=
  (@c9_read_failure_defaults envC1good ("d") sessNoVolume
    (ctlOk 100 SessionState.active) 100 SessionState.active
    rfl rfl (by simp) rfl (by simp)).1 rfl

/-- Claim C10: for a session that passes the pid and state filters, if the
owning process's executable path cannot be resolved the session is still
returned with process name the literal "Unknown" and no icon; if the path
resolves but product-name extraction fails, the process name falls back to
the final path component. -/
theorem c10_name_fallbacks {env : AudioEnv} {devId : String}
    {s : Session} {c2 : SessionControl2} {pid : Nat} {st : SessionState}
    (hc : s.castControl2 = some c2) (hp : c2.getProcessId = .ok pid)
    (hp0 : pid ≠ 0) (hs : c2.getState = .ok st)
    (hse : st ≠ SessionState.expired) :
    (env.fullPath pid = none →
      ∃ info, sessionInfo env devId s = .ok (some info) ∧
        info.process_name = "Unknown" ∧ info.icon_base64 = none) ∧
    (∀ fp, env.fullPath pid = some fp → env.productName fp = none →
      ∃ info, sessionInfo env devId s = .ok (some info) ∧
        info.process_name = fileNameOfPath fp) := by
  have hok : sessionInfo env devId s = .ok (some (mkInfo env devId pid s)) := by
    simp [sessionInfo, hc, hp, hp0, hs, hse]
  refine ⟨?_, ?_⟩
  · intro hfp
    exact ⟨mkInfo env devId pid s, hok,
      by simp [mkInfo, resolveNameIcon, hfp],
      by simp [mkInfo, resolveNameIcon, hfp]⟩
  · intro fp hfp hpn
    exact ⟨mkInfo env devId pid s, hok,
      by simp [mkInfo, resolveNameIcon, hfp, hpn]⟩

theorem c10_witness :
    (∃ info,
      sessionInfo envW10 ("d") (sessOk 100 SessionState.active 1 (1/2) false) =
        .ok (some info) ∧
      info.process_name = fileNameOfPath ("C:\\apps\\tool.exe")) ∧
    fileNameOfPath ("C:\\apps\\tool.exe") = ("tool.exe") :=
  ⟨(@c10_name_fallbacks envW10 ("d")
      (sessOk 100 SessionState.active 1 (1/2) false)
      (ctlOk 100 SessionState.active) 100 SessionState.active
      rfl rfl (by simp) rfl (by simp)).2
      ("C:\\apps\\tool.exe") rfl rfl,
    by decide⟩

/-! ### Claim C1 (corrected) -/

/-- Claim C1 as amended: during `get_sessions` the only per-session failures
absorbed are a failed `IAudioSessionControl2` cast (and the volume/mute reads,
see C9); a failure to retrieve a session from the enumerator, to read a
session's process id or lifecycle state, or to activate a device's session
manager propagates through `?` and aborts the whole call, and a failing
device likewise aborts the device loop, discarding the remaining devices. -/
theorem c1_failure_propagation (env : AudioEnv) :
    (∀ devId enum i rest s, (enum : SessionEnumerator).getSession i = .ok s →
      s.castControl2 = none →
      collectSessions env devId enum (i :: rest) =
        collectSessions env devId enum rest) ∧
    (∀ devId enum i rest e, (enum : SessionEnumerator).getSession i = .error e →
      collectSessions env devId enum (i :: rest) = .error e) ∧
    (∀ devId enum i rest s c2 e, (enum : SessionEnumerator).getSession i = .ok s →
      s.castControl2 = some c2 → c2.getProcessId = .error e →
      collectSessions env devId enum (i :: rest) = .error e) ∧
    (∀ devId enum i rest s c2 p e, (enum : SessionEnumerator).getSession i = .ok s →
      s.castControl2 = some c2 → c2.getProcessId = .ok p → p ≠ 0 →
      c2.getState = .error e →
      collectSessions env devId enum (i :: rest) = .error e) ∧
    (∀ dev idOpt e, (dev : Device).getId = .ok idOpt →
      dev.activate = .error e → deviceSessions env dev = .error e) ∧
    (∀ col d rest dev e, (col : DeviceCollection).item d = .ok dev →
      deviceSessions env dev = .error e →
      collectDevices env col (d :: rest) = .error e) := by
  refine ⟨?_, ?_, ?_, ?_, ?_, ?_⟩
  · intro devId enum i rest s hget hcast
    have hsi : sessionInfo env devId s = .ok none := by
      simp [sessionInfo, hcast]
    simp only [collectSessions, hget, hsi]
    cases hrest : collectSessions env devId enum rest <;> simp [hrest]
  · intro devId enum i rest e hget
    simp [collectSessions, hget]
  · intro devId enum i rest s c2 e hget hcast hpid
    have hsi : sessionInfo env devId s = .error e := by
      simp [sessionInfo, hcast, hpid]
    simp [collectSessions, hget, hsi]
  · intro devId enum i rest s c2 p e hget hcast hpid hp0 hstate
    have hsi : sessionInfo env devId s = .error e := by
      simp [sessionInfo, hcast, hpid, hp0, hstate]
    simp [collectSessions, hget, hsi]
  · intro dev idOpt e hid hact
    simp [deviceSessions, hid, hact]
  · intro col d rest dev e hitem hds
    simp [collectDevices, hitem, hds]

/-- Claim C1 as stated is false: in `envC1` the device collection enumerates
fine (two devices) and only the first device's session-manager activation
fails, yet the whole call fails and the healthy session of the second device
(returned when the failing device is absent) is not enumerated. -/
theorem c1_counterexample :
    getSessions envC1 = .error ⟨-5⟩ ∧
    getSessions envC1good =
      .ok [{ process_id := 100, process_name := "Unknown", volume := 1/2,
             is_muted := false, icon_base64 := none, device_id := "dev1" }] :=
  ⟨rfl, rfl⟩

theorem c1_witness : deviceSessions envC1 devActivateFails = .error ⟨-5⟩ :=
  (c1_failure_propagation envC1).2.2.2.2.1 devActivateFails
    (some ("dev0")) ⟨-5⟩ rfl rfl

/-! ### Claims C5 and C6 -/

/-- Claim C5: `set_persisted_default_audio_endpoint` issues exactly three
role-keyed writes — console, multimedia, communications, in that order, all
with the render flow and the same device id — succeeds exactly when the
console-role write succeeds (regardless of the other two), and the
verification read-back has no influence on the result. -/
theorem c5_routing_three_writes (store : PolicyStore) (pid : Nat)
    (deviceId : String) :
    (setPersistedDefaultAudioEndpoint store pid deviceId).2 =
      [(pid, flowRender, roleConsole, deviceId),
       (pid, flowRender, roleMultimedia, deviceId),
       (pid, flowRender, roleCommunications, deviceId)] ∧
    ((setPersistedDefaultAudioEndpoint store pid deviceId).1 = .ok () ↔
      (store.setEndpoint pid flowRender roleConsole deviceId).isErr = false) ∧
    (∀ g, (setPersistedDefaultAudioEndpoint
        { setEndpoint := store.setEndpoint, getEndpoint := g }
        pid deviceId).1 =
      (setPersistedDefaultAudioEndpoint store pid deviceId).1) := by
  refine ⟨rfl, ?_, ?_⟩
  · by_cases h : (store.setEndpoint pid flowRender roleConsole deviceId).isErr
      <;> simp [setPersistedDefaultAudioEndpoint, HRes.toResult, h]
  · intro g
    rfl

theorem c5_witness :
    (setPersistedDefaultAudioEndpoint storeConsoleOnly 42 ("devX")).1 =
      .ok () ∧
    (storeConsoleOnly.setEndpoint 42 flowRender roleMultimedia
      ("devX")).isErr = true :=
  ⟨(c5_routing_three_writes storeConsoleOnly 42 ("devX")).2.1.mpr rfl,
    by decide⟩

/-- Claim C6: the factory constructor queries the candidate interface GUIDs
newest first: if `IID_21H2` succeeds the downlevel GUID is never attempted
and the handle comes from the first pointer; if it fails and `IID_DOWNLEVEL`
succeeds the handle comes from the second pointer; only when both fail (or
the winning pointer is null) does the constructor return an error. -/
theorem c6_interface_negotiation (obj : ComObj) :
    ((obj.qi IID_21H2).1.isErr = false →
      factoryNew (.ok obj) =
        (if (obj.qi IID_21H2).2 = 0 then .error ⟨0⟩
         else .ok (obj.qi IID_21H2).2, [IID_21H2])) ∧
    ((obj.qi IID_21H2).1.isErr = true →
      (obj.qi IID_DOWNLEVEL).1.isErr = false →
      factoryNew (.ok obj) =
        (if (obj.qi IID_DOWNLEVEL).2 = 0 then .error ⟨0⟩
         else .ok (obj.qi IID_DOWNLEVEL).2, [IID_21H2, IID_DOWNLEVEL])) ∧
    ((obj.qi IID_21H2).1.isErr = true →
      (obj.qi IID_DOWNLEVEL).1.isErr = true →
      factoryNew (.ok obj) = (.error ⟨0⟩, [IID_21H2, IID_DOWNLEVEL])) := by
  refine ⟨?_, ?_, ?_⟩
  · intro h1
    simp only [factoryNew, h1, Bool.false_eq_true, if_false]
    split <;> rfl
  · intro h1 h2
    simp only [factoryNew, h1, h2, Bool.false_eq_true, if_true, if_false]
    split <;> rfl
  · intro h1 h2
    simp [factoryNew, h1, h2]

theorem c6_witness :
    factoryNew (.ok objC6) = (.ok 7, [IID_21H2, IID_DOWNLEVEL]) :=
  (c6_interface_negotiation objC6).2.1 (by decide) (by decide)

/-! ### Inversion lemmas for `apply_to_session` -/

/-- At most one mutating call is ever logged. -/
theorem applyToSession_log_length (env : AudioEnv) (target : Nat)
    (act : VolAction) : (applyToSession env target act).2.length ≤ 1 := by
  unfold applyToSession
  split
  · simp
  split
  · simp
  split <;> simp

/-- A logged write means the device scan acted: it carries the action itself,
and the call's result is the acted result. -/
theorem applyToSession_log_inv {env : AudioEnv} {target : Nat}
    {act : VolAction} {res : Except WinErr Unit}
    {log : List (Nat × VolAction)}
    (h : applyToSession env target act = (res, log)) {sid : Nat}
    {a : VolAction} (hm : (sid, a) ∈ log) :
    a = act ∧ ∃ col n, env.enumDevices = .ok col ∧ col.getCount = .ok n ∧
      applyDevices target act col (List.range n) = .acted res sid := by
  unfold applyToSession at h
  split at h
  · cases h
    simp at hm
  next col hcol =>
    split at h
    · cases h
      simp at hm
    next n hn =>
      split at h
      · cases h
        simp at hm
      case _ r sid0 hacted =>
        cases h
        simp only [List.mem_singleton, Prod.mk.injEq] at hm
        obtain ⟨h1, h2⟩ := hm
        subst h1
        subst h2
        exact ⟨rfl, col, n, hcol, hn, hacted⟩
      · cases h
        simp at hm

/-- Inverting an acted session scan over `range' a k`: some index acted, every
strictly earlier index in the scanned range was retrieved and skipped. -/
theorem applySessions_acted_inv {target : Nat} {act : VolAction}
    {enum : SessionEnumerator} :
    ∀ {a k : Nat} {r : Except WinErr Unit} {sid : Nat},
      applySessions target act enum (List.range' a k) = .acted r sid →
      ∃ j, a ≤ j ∧ j < a + k ∧ ∃ s sv, enum.getSession j = .ok s ∧
        ActsOn target s sv ∧ sv.sid = sid ∧ r = runAction sv act ∧
        ∀ j', a ≤ j' → j' < j → ∃ s', enum.getSession j' = .ok s' ∧
          Skipped target s' := by
  intro a k
  induction k generalizing a with
  | zero =>
    intro r sid h
    simp [List.range', applySessions] at h
  | succ k ih =>
    intro r sid h
    rw [List.range'_succ] at h
    unfold applySessions at h
    split at h
    · exact absurd h (by simp)
    next s hget =>
      split at h
      -- castControl2 = none: the head is skipped, recurse
      next hc2 =>
        rcases ih h with ⟨j, hj1, hj2, s', sv, hget', hacts, hsid, hr, hearlier⟩
        refine ⟨j, by omega, by omega, s', sv, hget', hacts, hsid, hr, ?_⟩
        intro j' hj'1 hj'2
        rcases Nat.eq_or_lt_of_le hj'1 with heq | hlt
        · subst heq
          exact ⟨s, hget, Or.inl hc2⟩
        · exact hearlier j' hlt hj'2
      next c2 hc2 =>
        split at h
        · exact absurd h (by simp)
        next pid hpid =>
          split at h
          -- pid = target
          next hpt =>
            split at h
            -- volume cast succeeds: this is the acting session
            next sv hsv =>
              have h1 : runAction sv act = r := by
                cases h
                rfl
              have h2 : sv.sid = sid := by
                cases h
                rfl
              refine ⟨a, le_refl a, by omega, s, sv, hget,
                ⟨c2, hc2, by rw [hpt] at hpid; exact hpid, hsv⟩,
                h2, h1.symm, ?_⟩
              intro j' hj'1 hj'2
              omega
            -- volume cast fails: skipped, recurse
            next hsv =>
              rcases ih h with ⟨j, hj1, hj2, s', sv, hget', hacts, hsid, hr, hearlier⟩
              refine ⟨j, by omega, by omega, s', sv, hget', hacts, hsid, hr, ?_⟩
              intro j' hj'1 hj'2
              rcases Nat.eq_or_lt_of_le hj'1 with heq | hlt
              · subst heq
                exact ⟨s, hget, Or.inr ⟨c2, pid, hc2, hpid, Or.inr hsv⟩⟩
              · exact hearlier j' hlt hj'2
          -- pid ≠ target: skipped, recurse
          next hpt =>
            rcases ih h with ⟨j, hj1, hj2, s', sv, hget', hacts, hsid, hr, hearlier⟩
            refine ⟨j, by omega, by omega, s', sv, hget', hacts, hsid, hr, ?_⟩
            intro j' hj'1 hj'2
            rcases Nat.eq_or_lt_of_le hj'1 with heq | hlt
            · subst heq
              exact ⟨s, hget, Or.inr ⟨c2, pid, hc2, hpid, Or.inl hpt⟩⟩
            · exact hearlier j' hlt hj'2

/-- A session scan that falls through inspected and skipped every index. -/
theorem applySessions_noMatch_inv {target : Nat} {act : VolAction}
    {enum : SessionEnumerator} :
    ∀ {idxs : List Nat},
      applySessions target act enum idxs = .noMatch →
      ∀ j, j ∈ idxs → ∃ s, enum.getSession j = .ok s ∧ Skipped target s := by
  intro idxs
  induction idxs with
  | nil =>
    intro _ j hj
    simp at hj
  | cons i rest ih =>
    intro h j hj
    unfold applySessions at h
    split at h
    · exact absurd h (by simp)
    next s hget =>
      rcases List.mem_cons.mp hj with heq | hmem
      · subst heq
        refine ⟨s, hget, ?_⟩
        split at h
        next hc2 => exact Or.inl hc2
        next c2 hc2 =>
          split at h
          · exact absurd h (by simp)
          next pid hpid =>
            split at h
            next hpt =>
              split at h
              · exact absurd h (by simp)
              next hsv =>
                exact Or.inr ⟨c2, pid, hc2, hpid, Or.inr hsv⟩
            next hpt =>
              exact Or.inr ⟨c2, pid, hc2, hpid, Or.inl hpt⟩
      · split at h
        · exact ih h j hmem
        next c2 hc2 =>
          split at h
          · exact absurd h (by simp)
          next pid hpid =>
            split at h
            next hpt =>
              split at h
              · exact absurd h (by simp)
              next hsv =>
                exact ih h j hmem
            next hpt =>
              exact ih h j hmem

/-- Conversely, a scan over sessions that are all skippable falls through. -/
theorem applySessions_noMatch_of_skipped {target : Nat} {act : VolAction}
    {enum : SessionEnumerator} :
    ∀ {idxs : List Nat},
      (∀ j, j ∈ idxs → ∃ s, enum.getSession j = .ok s ∧ Skipped target s) →
      applySessions target act enum idxs = .noMatch := by
  intro idxs
  induction idxs with
  | nil =>
    intro _
    rfl
  | cons i rest ih =>
    intro hall
    rcases hall i (List.mem_cons_self ..) with ⟨s, hget, hskip⟩
    have hrest : applySessions target act enum rest = .noMatch :=
      ih fun j hj => hall j (List.mem_cons_of_mem _ hj)
    unfold applySessions
    rw [hget]
    rcases hskip with hc2 | ⟨c2, p, hc2, hp, hor⟩
    · simp only [hc2]
      exact hrest
    · simp only [hc2, hp]
      rcases hor with hne | hsv
      · simp only [if_neg hne]
        exact hrest
      · by_cases hpt : p = target
        · simp only [if_pos hpt, hsv]
          exact hrest
        · simp only [if_neg hpt]
          exact hrest

/-- Inverting an acted device scan over `range' a k`: some device acted and
every strictly earlier device in the scanned range was retrieved, fully
enumerated, and contained only skippable sessions. -/
theorem applyDevices_acted_inv {target : Nat} {act : VolAction}
    {col : DeviceCollection} :
    ∀ {a k : Nat} {r : Except WinErr Unit} {sid : Nat},
      applyDevices target act col (List.range' a k) = .acted r sid →
      ∃ d, a ≤ d ∧ d < a + k ∧ ∃ dev mgr enum cnt,
        col.item d = .ok dev ∧ dev.activate = .ok mgr ∧
        mgr.getSessionEnumerator = .ok enum ∧ enum.getCount = .ok cnt ∧
        applySessions target act enum (List.range cnt) = .acted r sid ∧
        ∀ d', a ≤ d' → d' < d → ∃ dev', col.item d' = .ok dev' ∧
          DeviceSkipsAll target dev' := by
  intro a k
  induction k generalizing a with
  | zero =>
    intro r sid h
    simp [List.range', applyDevices] at h
  | succ k ih =>
    intro r sid h
    rw [List.range'_succ] at h
    unfold applyDevices at h
    split at h
    · exact absurd h (by simp)
    next dev hitem =>
      split at h
      · exact absurd h (by simp)
      next mgr hact =>
        split at h
        · exact absurd h (by simp)
        next enum henum =>
          split at h
          · exact absurd h (by simp)
          next cnt hcnt =>
            split at h
            · exact absurd h (by simp)
            -- the head device acted
            next r0 sid0 hscan =>
              have hr : r0 = r ∧ sid0 = sid := by
                constructor <;> cases h <;> rfl
              obtain ⟨hr0, hsid0⟩ := hr
              subst hr0
              subst hsid0
              refine ⟨a, le_refl a, by omega, dev, mgr, enum, cnt,
                hitem, hact, henum, hcnt, hscan, ?_⟩
              intro d' hd'1 hd'2
              omega
            -- the head device fell through: it skips all, recurse
            next hscan =>
              rcases ih h with ⟨d, hd1, hd2, dev', mgr', enum', cnt',
                hitem', hact', henum', hcnt', hscan', hearlier⟩
              refine ⟨d, by omega, by omega, dev', mgr', enum', cnt',
                hitem', hact', henum', hcnt', hscan', ?_⟩
              intro d' hd'1 hd'2
              rcases Nat.eq_or_lt_of_le hd'1 with heq | hlt
              · subst heq
                refine ⟨dev, hitem, mgr, enum, cnt, hact, henum, hcnt, ?_⟩
                intro j hj
                exact applySessions_noMatch_inv hscan j (List.mem_range.mpr hj)
              · exact hearlier d' hlt hd'2

/-- A device scan over devices that only skip falls through. -/
theorem applyDevices_noMatch_of {target : Nat} {act : VolAction}
    {col : DeviceCollection} :
    ∀ {ds : List Nat},
      (∀ d, d ∈ ds → ∃ dev, col.item d = .ok dev ∧
        DeviceSkipsAll target dev) →
      applyDevices target act col ds = .noMatch := by
  intro ds
  induction ds with
  | nil =>
    intro _
    rfl
  | cons d rest ih =>
    intro hall
    rcases hall d (List.mem_cons_self ..) with
      ⟨dev, hitem, mgr, enum, cnt, hact, henum, hcnt, hsess⟩
    have hscan : applySessions target act enum (List.range cnt) = .noMatch :=
      applySessions_noMatch_of_skipped fun j hj =>
        hsess j (List.mem_range.mp hj)
    have hrest : applyDevices target act col rest = .noMatch :=
      ih fun d' hd' => hall d' (List.mem_cons_of_mem _ hd')
    unfold applyDevices
    simp only [hitem, hact, henum, hcnt, hscan]
    exact hrest

/-- Under a fully healthy scan with no matching session, `apply_to_session`
falls through to `Ok(())` and issues no mutating call. -/
theorem applyToSession_noop {env : AudioEnv} {target : Nat}
    (hscan : ScanOk env) (hnone : NoSessionFor env target) (act : VolAction) :
    applyToSession env target act = (.ok (), []) := by
  rcases hscan with ⟨col, n, hcol, hn, hdev⟩
  have hall : ∀ d, d ∈ List.range n → ∃ dev, col.item d = .ok dev ∧
      DeviceSkipsAll target dev := by
    intro d hd
    have hdn := List.mem_range.mp hd
    rcases hdev d hdn with ⟨dev, hitem, mgr, hact, enum, henum, cnt, hcnt, hsess⟩
    refine ⟨dev, hitem, mgr, enum, cnt, hact, henum, hcnt, ?_⟩
    intro j hj
    rcases hsess j hj with ⟨s, hget, hc2p⟩
    refine ⟨s, hget, ?_⟩
    cases hc2 : s.castControl2 with
    | none => exact Or.inl hc2
    | some c2 =>
      rcases hc2p c2 hc2 with ⟨p, hp⟩
      have hne : p ≠ target :=
        hnone d j dev s
          ⟨col, n, hcol, hn, hdn, hitem, mgr, enum, cnt, hact, henum,
            hcnt, hj, hget⟩ c2 p hc2 hp
      exact Or.inr ⟨c2, p, hc2, hp, Or.inl hne⟩
  have hnm : applyDevices target act col (List.range n) = .noMatch :=
    applyDevices_noMatch_of hall
  unfold applyToSession
  simp only [hcol, hn, hnm]

/-! ### Claims C7, C8 and C2 -/

/-- Claim C7: when every call on the scan path succeeds and no session on any
active device belongs to process `target`, `set_session_volume` and
`set_session_mute` both return success and issue no mutating call on any
session: the call is a no-op, not an error. -/
theorem c7_no_match_noop {env : AudioEnv} {target : Nat}
    (hscan : ScanOk env) (hnone : NoSessionFor env target)
    (v : Rat) (m : Bool) :
    setSessionVolume env target v = (.ok (), []) ∧
    setSessionMute env target m = (.ok (), []) :=
  ⟨applyToSession_noop hscan hnone _, applyToSession_noop hscan hnone _⟩

theorem c7_witness :
    setSessionVolume envC1good 200 1 = (.ok (), []) ∧
    setSessionMute envC1good 200 true = (.ok (), []) := by
  refine c7_no_match_noop ?_ ?_ 1 true
  · refine ⟨colOfList [.ok devGood], 1, rfl, rfl, ?_⟩
    intro d hd
    have hd0 : d = 0 := by omega
    subst hd0
    refine ⟨devGood, rfl,
      mgrOf [.ok (sessOk 100 SessionState.active 1 (1/2) false)], rfl,
      enumOfList [.ok (sessOk 100 SessionState.active 1 (1/2) false)], rfl,
      1, rfl, ?_⟩
    intro j hj
    have hj0 : j = 0 := by omega
    subst hj0
    refine ⟨sessOk 100 SessionState.active 1 (1/2) false, rfl, ?_⟩
    intro c2 hc2
    simp only [sessOk, Option.some.injEq] at hc2
    exact ⟨100, by rw [← hc2]; rfl⟩
  · intro d j dev s hat c2 p hc2 hp
    obtain ⟨col, n, hcol, hn, hdn, hitem, mgr, enum, cnt, hmgr, henum,
      hcnt, hjc, hget⟩ := hat
    simp only [envC1good, envOf, Except.ok.injEq] at hcol
    subst hcol
    simp only [colOfList, Except.ok.injEq, List.length_singleton] at hn
    subst hn
    have hd0 : d = 0 := by omega
    subst hd0
    simp only [colOfList, List.getD_cons_zero, Except.ok.injEq] at hitem
    subst hitem
    simp only [devGood, devOf, Except.ok.injEq] at hmgr
    subst hmgr
    simp only [mgrOf, Except.ok.injEq] at henum
    subst henum
    simp only [enumOfList, Except.ok.injEq, List.length_singleton] at hcnt
    subst hcnt
    have hj0 : j = 0 := by omega
    subst hj0
    simp only [enumOfList, List.getD_cons_zero, Except.ok.injEq] at hget
    subst hget
    simp only [sessOk, Option.some.injEq] at hc2
    subst hc2
    simp only [ctlOk, Except.ok.injEq] at hp
    omega

/-- Claim C8: a single `apply_to_session` call issues at most one mutating
call, and when it does, the target is the first matching session in
device-enumeration order then session-enumeration order: every earlier
session in the scan was inspected and skipped, and every earlier device
contained only skippable sessions. -/
theorem c8_first_match_only {env : AudioEnv} {target : Nat} {act : VolAction}
    {res : Except WinErr Unit} {log : List (Nat × VolAction)}
    (h : applyToSession env target act = (res, log)) :
    log.length ≤ 1 ∧
    ∀ sid a, (sid, a) ∈ log → a = act ∧
      ∃ col n, env.enumDevices = .ok col ∧ col.getCount = .ok n ∧
      ∃ d, d < n ∧ ∃ dev mgr enum cnt, col.item d = .ok dev ∧
        dev.activate = .ok mgr ∧ mgr.getSessionEnumerator = .ok enum ∧
        enum.getCount = .ok cnt ∧
        ∃ j, j < cnt ∧ ∃ s sv, enum.getSession j = .ok s ∧
          ActsOn target s sv ∧ sv.sid = sid ∧ res = runAction sv act ∧
          (∀ j', j' < j → ∃ s', enum.getSession j' = .ok s' ∧
            Skipped target s') ∧
          (∀ d', d' < d → ∃ dev', col.item d' = .ok dev' ∧
            DeviceSkipsAll target dev') := by
  constructor
  · have hlen := applyToSession_log_length env target act
    rw [h] at hlen
    exact hlen
  · intro sid a hm
    obtain ⟨ha, col, n, hcol, hn, hacted⟩ := applyToSession_log_inv h hm
    subst ha
    rw [List.range_eq_range'] at hacted
    obtain ⟨d, hd1, hd2, dev, mgr, enum, cnt, hitem, hact2, henum, hcnt,
      hscan, hdevearlier⟩ := applyDevices_acted_inv hacted
    rw [List.range_eq_range'] at hscan
    obtain ⟨j, hj1, hj2, s, sv, hget, hacts, hsid, hr, hearlier⟩ :=
      applySessions_acted_inv hscan
    exact ⟨rfl, col, n, hcol, hn, d, by omega, dev, mgr, enum, cnt, hitem,
      hact2, henum, hcnt, j, by omega, s, sv, hget, hacts, hsid, hr,
      fun j' hj' => hearlier j' (Nat.zero_le _) hj',
      fun d' hd' => hdevearlier d' (Nat.zero_le _) hd'⟩

theorem c8_witness :
    applyToSession envW8 100 (VolAction.setVolume (1/2)) =
      (.ok (), [(1, VolAction.setVolume (1/2))]) ∧
    (applyToSession envW8 100 (VolAction.setVolume (1/2))).2.length ≤ 1 :=
  ⟨rfl,
    (@c8_first_match_only envW8 100 (VolAction.setVolume (1/2)) (.ok ())
      [(1, VolAction.setVolume (1/2))] rfl).1⟩

/-- Claim C2 as amended: `set_session_volume` performs no range validation at
all: every mutating call it logs carries the caller's value `v` unmodified
(in particular for `v` outside `[0, 1]`), and the call's result is exactly
the session interface's own response to that unmodified value — the wrapper
neither rejects nor clamps. -/
theorem c2_volume_passed_unmodified {env : AudioEnv} {pid : Nat} {v : Rat}
    {res : Except WinErr Unit} {log : List (Nat × VolAction)}
    (h : setSessionVolume env pid v = (res, log)) :
    (∀ sid a, (sid, a) ∈ log → a = VolAction.setVolume v) ∧
    (∀ sid a, (sid, a) ∈ log →
      ∃ sv : SimpleVolume, sv.sid = sid ∧ res = sv.setMasterVolume v) := by
  unfold setSessionVolume at h
  constructor
  · intro sid a hm
    exact (applyToSession_log_inv h hm).1
  · intro sid a hm
    obtain ⟨ha, col, n, hcol, hn, hacted⟩ := applyToSession_log_inv h hm
    rw [List.range_eq_range'] at hacted
    obtain ⟨d, _, _, dev, mgr, enum, cnt, _, _, _, _, hscan, _⟩ :=
      applyDevices_acted_inv hacted
    rw [List.range_eq_range'] at hscan
    obtain ⟨j, _, _, s, sv, _, hacts, hsid, hr, _⟩ :=
      applySessions_acted_inv hscan
    exact ⟨sv, hsid, hr⟩

/-- Claim C2 as stated is false: the out-of-range value 3/2 is silently
accepted — the call succeeds and the value reaches the session's volume
interface unmodified (neither rejected nor clamped). -/
theorem c2_counterexample :
    setSessionVolume envC2 100 (3/2) =
      (.ok (), [(7, VolAction.setVolume (3/2))]) ∧
    ¬((3 : Rat)/2 ≤ 1) :=
  ⟨rfl, by norm_num⟩

theorem c2_witness :
    ∃ sv : SimpleVolume, sv.sid = 7 ∧
      (Except.ok () : Except WinErr Unit) = sv.setMasterVolume (3/2) :=
  (@c2_volume_passed_unmodified envC2 100 (3/2) (.ok ())
    [(7, VolAction.setVolume (3/2))] rfl).2 7
    (VolAction.setVolume (3/2)) (by simp)

end SoundGen
